import Mathlib

/-!
Shallow embedding of the diyHue enhanced link-button security add-on:
`services/security.py` (the `EnhancedSecurity` pairing-window state machine)
and `flaskUI/restful_enhanced.py` (the patched authentication wrapper and
the `EnhancedLinkButton` config-key interceptor).

Wall-clock instants (`time.time()` / `datetime.now()`) are modelled as exact
rationals; the configured timeout (`int(os.getenv(..))`) as an integer.  The
pending `threading.Timer` is modelled by its scheduled fire instant.  The
hash calls `hashlib.md5(..).hexdigest()` / `hashlib.sha256(..).hexdigest()`
and the random `uuid.uuid4()` draws are inputs: an oracle structure for the
hash functions (their hexdigest interface contract is a hypothesis where a
claim needs it) and explicit strings for the uuid draws and the
`datetime.now()` readings.
-/

namespace HueSec

/-- Python `max(a, b)` on two numbers: the second argument is returned only
when strictly larger. -/
def pymax (a b : ℚ) : ℚ := if a < b then b else a

/-- Python `int(q)` applied to a float: truncation toward zero. -/
def pyIntTrunc (q : ℚ) : ℤ := q.num.tdiv (q.den : ℤ)

/-- Python string slice `s[:n]`. -/
def pySlice (s : String) (n : Nat) : String := String.mk (s.data.take n)

/-- The three-LED indicator trio (`self.led_state` in `security.py`). -/
structure LedState where
  led1 : Bool
  led2 : Bool
  led3 : Bool
deriving DecidableEq

def LedState.allOn : LedState := ⟨true, true, true⟩

def LedState.allOff : LedState := ⟨false, false, false⟩

/-- State of the `EnhancedSecurity` object (`security.py`, `__init__`).
`cleanup_timer` is the scheduled fire instant of the pending
`threading.Timer`, `none` when no timer is pending. -/
structure EnhancedSecurity where
  button_pressed : Bool
  button_press_time : ℚ
  button_timeout : ℤ
  led_indicator_enabled : Bool
  security_enabled : Bool
  led_state : LedState
  cleanup_timer : Option ℚ
deriving DecidableEq

/-- The freshly constructed state (`EnhancedSecurity.__init__`), with the
three environment-derived configuration values as parameters. -/
def mkSecurity (timeout : ℤ) (ledEnabled securityEnabled : Bool) :
    EnhancedSecurity :=
  { button_pressed := false
    button_press_time := 0
    button_timeout := timeout
    led_indicator_enabled := ledEnabled
    security_enabled := securityEnabled
    led_state := LedState.allOff
    cleanup_timer := none }

/-- `EnhancedSecurity._button_timeout` (`security.py` lines 118-129):
disarm, clear the press time, switch all LEDs off.  It does not touch the
timer handle. -/
def buttonTimeoutCallback (st : EnhancedSecurity) : EnhancedSecurity :=
  { st with
    button_pressed := false
    button_press_time := 0
    led_state := LedState.allOff }

/-- The dict returned by `press_button`; the security-disabled branch omits
the `time_remaining` key, hence the `Option`. -/
structure PressResult where
  success : Bool
  timeout : ℤ
  leds : LedState
  time_remaining : Option ℤ
  message : String
deriving DecidableEq

/-- `EnhancedSecurity.press_button` (`security.py` lines 28-71), taking the
value read from `time.time()` as `now`.  The security-disabled branch arms
without touching LEDs or the timer; the enabled branch arms, lights all
LEDs and cancels-and-restarts the cleanup timer. -/
def press_button (st : EnhancedSecurity) (now : ℚ) :
    PressResult × EnhancedSecurity :=
  if st.security_enabled = false then
    ({ success := true
       timeout := st.button_timeout
       leds := st.led_state
       time_remaining := none
       message := "Link button activated" },
     { st with button_pressed := true, button_press_time := now })
  else
    ({ success := true
       timeout := st.button_timeout
       leds := LedState.allOn
       time_remaining := some st.button_timeout
       message := "Link button activated. All 3 LEDs blinking. Complete pairing within " ++ toString st.button_timeout ++ " seconds." },
     { st with
       button_pressed := true
       button_press_time := now
       led_state := LedState.allOn
       cleanup_timer := some (now + (st.button_timeout : ℚ)) })

/-- `EnhancedSecurity.is_button_pressed` (`security.py` lines 73-87):
lazy-expiry query; on `elapsed > timeout` it runs `_button_timeout` as a
side effect and answers false. -/
def is_button_pressed (st : EnhancedSecurity) (now : ℚ) :
    Bool × EnhancedSecurity :=
  if st.button_pressed = false then (false, st)
  else
    if now - st.button_press_time > (st.button_timeout : ℚ) then
      (false, buttonTimeoutCallback st)
    else
      (true, st)

/-- The dict returned by `get_status`. -/
structure StatusResult where
  button_pressed : Bool
  leds : LedState
  time_remaining : ℤ
  message : String
deriving DecidableEq

/-- `EnhancedSecurity.get_status` (`security.py` lines 89-116).  Note the
expiry test is `remaining == 0` with `remaining = max(0, timeout - elapsed)`,
i.e. `elapsed >= timeout`, unlike `is_button_pressed` which uses
`elapsed > timeout`. -/
def get_status (st : EnhancedSecurity) (now : ℚ) :
    StatusResult × EnhancedSecurity :=
  if st.button_pressed = false then
    ({ button_pressed := false
       leds := LedState.allOff
       time_remaining := 0
       message := "Link button not pressed" }, st)
  else
    let remaining : ℚ := pymax 0 ((st.button_timeout : ℚ) - (now - st.button_press_time))
    if remaining = 0 then
      ({ button_pressed := false
         leds := LedState.allOff
         time_remaining := 0
         message := "Link button timeout expired" }, buttonTimeoutCallback st)
    else
      ({ button_pressed := true
         leds := st.led_state
         time_remaining := pyIntTrunc remaining
         message := "Link button active. " ++ toString (pyIntTrunc remaining) ++ " seconds remaining." }, st)

/-- `EnhancedSecurity.reset` (`security.py` lines 131-136): cancel the
pending timer, then run `_button_timeout`. -/
def reset (st : EnhancedSecurity) : EnhancedSecurity :=
  buttonTimeoutCallback { st with cleanup_timer := none }

/-- The pending `threading.Timer` firing: it runs `_button_timeout` and is
no longer pending afterwards.  A fire only happens when a timer is pending. -/
def fireTimer (st : EnhancedSecurity) : EnhancedSecurity :=
  match st.cleanup_timer with
  | some _ => { buttonTimeoutCallback st with cleanup_timer := none }
  | none => st

/-- The operations that mutate the shared `EnhancedSecurity` state. -/
inductive SecOp where
  | press (now : ℚ)
  | check (now : ℚ)
  | status (now : ℚ)
  | doReset
  | fireExpiry
deriving DecidableEq

def applyOp (st : EnhancedSecurity) : SecOp → EnhancedSecurity
  | SecOp.press now => (press_button st now).2
  | SecOp.check now => (is_button_pressed st now).2
  | SecOp.status now => (get_status st now).2
  | SecOp.doReset => reset st
  | SecOp.fireExpiry => fireTimer st

def runOps (st : EnhancedSecurity) : List SecOp → EnhancedSecurity
  | [] => st
  | op :: ops => runOps (applyOp st op) ops

/-- A whitelist entry as built by `enhanced_auth_wrapper`
(`restful_enhanced.py` lines 72-81): the two date strings come from two
separate `str(datetime.now())` calls, evaluated in the dict-literal order
`last use date` first, `create date` second. -/
structure WhitelistEntry where
  last_use_date : String
  create_date : String
  name : String
  clientkey : Option String
deriving DecidableEq

/-- The part of `bridge_config` the wrapper touches: the `whitelist`
mapping, absent until first created. -/
structure BridgeConfig where
  whitelist : Option (String → Option WhitelistEntry)

def emptyWhitelist : String → Option WhitelistEntry := fun _ => none

/-- Python dict assignment `w[k] = v` on the whitelist mapping. -/
def wlSet (w : String → Option WhitelistEntry) (k : String)
    (v : WhitelistEntry) : String → Option WhitelistEntry :=
  fun q => if q = k then some v else w q

/-- The two hash functions used by the wrapper, as an oracle:
`hashlib.md5(..).hexdigest()` and `hashlib.sha256(..).hexdigest()`. -/
structure CryptoOracle where
  md5hex : String → String
  sha256hex : String → String

def isLowerHexChar (c : Char) : Bool :=
  c.isDigit || (decide ('a' ≤ c) && decide (c ≤ 'f'))

/-- All characters of the string are lowercase hex digits. -/
def isLowerHexStr (s : String) : Bool := s.data.all isLowerHexChar

/-- Interface contract of `hashlib.md5(..).hexdigest()`: 32 lowercase hex
characters for every input. -/
def md5Contract (o : CryptoOracle) : Prop :=
  ∀ s : String, (o.md5hex s).length = 32 ∧ isLowerHexStr (o.md5hex s) = true

/-- Interface contract of `hashlib.sha256(..).hexdigest()`: 64 characters
for every input. -/
def sha256Contract (o : CryptoOracle) : Prop :=
  ∀ s : String, (o.sha256hex s).length = 64

/-- One element of the JSON list returned by the wrapper: either the
link-button error object or the success object. -/
inductive AuthItem where
  | err (etype : ℕ) (address : String) (description : String)
  | ok (username : String) (clientkey : Option String)
deriving DecidableEq

/-- `enhanced_auth_wrapper` (`restful_enhanced.py` lines 32-100), with the
module available (`ENHANCED_SECURITY_AVAILABLE = True`, as in the shipped
add-on where all three files are present).  Inputs beyond the request are
the oracles for the impure calls: `uuidName`/`uuidKey` are the two
`str(uuid.uuid4())` draws, `tLastUse`/`tCreate` the two `str(datetime.now())`
readings in evaluation order, `now1`/`now2` the `time.time()` readings made
inside `is_button_pressed` and `get_status`. -/
def enhanced_auth_wrapper (oracle : CryptoOracle) (uuidName uuidKey : String)
    (tLastUse tCreate : String) (devicetype : Option String)
    (generateclientkey : Bool) (sec : EnhancedSecurity) (now1 now2 : ℚ)
    (cfg : BridgeConfig) :
    List AuthItem × EnhancedSecurity × BridgeConfig :=
  let device_type := devicetype.getD ("unknown#unknown")
  let r := is_button_pressed sec now1
  if r.1 = false then
    ([AuthItem.err 101 ("") ("link button not pressed")], r.2, cfg)
  else
    let sec2 := (get_status r.2 now2).2
    let username := oracle.md5hex (device_type ++ uuidName)
    let base := cfg.whitelist.getD emptyWhitelist
    let clientkey : Option String :=
      if generateclientkey = true then some (pySlice (oracle.sha256hex uuidKey) 32)
      else none
    let entry : WhitelistEntry :=
      { last_use_date := tLastUse
        create_date := tCreate
        name := device_type
        clientkey := clientkey }
    ([AuthItem.ok username clientkey], sec2,
     { whitelist := some (wlSet base username entry) })

/-- `EnhancedLinkButton.__setitem__` (`restful_enhanced.py` lines 174-179)
after `patch_bridge_linkbutton` has replaced `bridge_config["linkbutton"]`
with the wrapper object itself: the final line
`bridge_config["linkbutton"][key] = value` re-enters `__setitem__`, so the
body is one recursion step with no base case.  Fuel semantics: `none`
means the call has not terminated within `fuel` steps. -/
def linkbuttonSet : Nat → String → ℚ → EnhancedSecurity → ℚ →
    Option EnhancedSecurity
  | 0, _, _, _, _ => none
  | Nat.succ fuel, key, v, sec, now =>
      let sec1 := if key = "lastpress" then (press_button sec now).2 else sec
      linkbuttonSet fuel key v sec1 now

/-- `EnhancedLinkButton.__getitem__` for the key `lastpress`
(`restful_enhanced.py` lines 165-171): `int(time.time())` when the button
is pressed, `0` otherwise. -/
def linkbuttonGetLastpress (sec : EnhancedSecurity) (now : ℚ) :
    ℤ × EnhancedSecurity :=
  let r := is_button_pressed sec now
  if r.1 = true then (pyIntTrunc now, r.2) else (0, r.2)

/-- A state armed at instant 0 with the default 30-second timeout: the
result of `press_button` at 0 on a default fresh state. -/
def secArmed30 : EnhancedSecurity :=
  ⟨true, 0, 30, true, true, LedState.allOn, some 30⟩

/-- A fresh default-configuration state (timeout 30, indicators on,
security on). -/
def secFresh30 : EnhancedSecurity := mkSecurity 30 true true

/-- A fresh state with the security-disable flag set. -/
def secDisabledUnarmed : EnhancedSecurity := mkSecurity 30 true false

/-- A bridge config with no whitelist key yet. -/
def cfgEmpty : BridgeConfig := ⟨none⟩

/-- A concrete oracle meeting the hexdigest interface contracts, used to
instantiate witnesses. -/
def ocW : CryptoOracle :=
  ⟨fun _ => ("0123456789abcdef0123456789abcdef"),
   fun _ => ("0123456789abcdef0123456789abcdef0123456789abcdef0123456789abcdef")⟩

/-- The LED invariant that the state machine actually maintains: the three
flags always agree; with security enabled they mirror `button_pressed`;
with security disabled they stay off. -/
def ledInv (st : EnhancedSecurity) : Prop :=
  (st.led_state.led1 = st.led_state.led2 ∧ st.led_state.led2 = st.led_state.led3) ∧
  (st.security_enabled = true → st.led_state.led1 = st.button_pressed) ∧
  (st.security_enabled = false → st.led_state.led1 = false)

/-- `pymax 0 x` vanishes exactly when `x` is nonpositive. -/
theorem pymax_zero_iff (x : ℚ) : pymax 0 x = 0 ↔ x ≤ 0 := by
  unfold pymax
  by_cases h : (0 : ℚ) < x
  · rw [if_pos h]
    constructor
    · intro h0
      exact absurd h (by rw [h0]; exact lt_irrefl 0)
    · intro hle
      exact absurd h (not_lt.mpr hle)
  · rw [if_neg h]
    exact ⟨fun _ => not_lt.mp h, fun _ => rfl⟩

/-- A Python slice `s[:n]` has length `min n (length s)`. -/
theorem pySlice_length (s : String) (n : Nat) :
    (pySlice s n).length = min n s.length := by
  show (s.data.take n).length = _
  rw [List.length_take]
  rfl

/-- Both branches of `press_button` arm the window at `now` and leave the
configuration fields untouched. -/
theorem press_button_fields (st : EnhancedSecurity) (now : ℚ) :
    (press_button st now).2.button_pressed = true ∧
    (press_button st now).2.button_press_time = now ∧
    (press_button st now).2.button_timeout = st.button_timeout ∧
    (press_button st now).2.security_enabled = st.security_enabled := by
  by_cases hs : st.security_enabled = false <;> simp [press_button, hs]

/-- With security enabled, `press_button` cancels and restarts the cleanup
timer, scheduling it `timeout` after the press instant. -/
theorem press_button_timer_enabled (st : EnhancedSecurity) (now : ℚ)
    (hs : st.security_enabled = true) :
    (press_button st now).2.cleanup_timer = some (now + (st.button_timeout : ℚ)) := by
  simp [press_button, hs]

/-- `is_button_pressed` on an armed, unexpired state answers true and does
not mutate. -/
theorem is_button_pressed_armed (st : EnhancedSecurity) (now : ℚ)
    (hb : st.button_pressed = true)
    (hc : ¬ now - st.button_press_time > (st.button_timeout : ℚ)) :
    is_button_pressed st now = (true, st) := by
  have hb' : ¬ st.button_pressed = false := by simp [hb]
  unfold is_button_pressed
  rw [if_neg hb', if_neg hc]

/-- `_button_timeout` establishes the LED invariant outright. -/
theorem ledInv_buttonTimeout (st : EnhancedSecurity) :
    ledInv (buttonTimeoutCallback st) :=
  ⟨⟨rfl, rfl⟩, fun _ => rfl, fun _ => rfl⟩

/-- Every operation preserves the LED invariant. -/
theorem ledInv_applyOp (st : EnhancedSecurity) (op : SecOp)
    (h : ledInv st) : ledInv (applyOp st op) := by
  obtain ⟨⟨h12, h23⟩, hen, hdis⟩ := h
  cases op with
  | press now =>
    by_cases hs : st.security_enabled = false
    · refine ⟨⟨?_, ?_⟩, ?_, ?_⟩ <;> simp [applyOp, press_button, hs]
      · exact h12
      · exact h23
      · exact hdis hs
    · refine ⟨⟨?_, ?_⟩, ?_, ?_⟩ <;>
        simp [applyOp, press_button, hs, LedState.allOn]
  | check now =>
    show ledInv (is_button_pressed st now).2
    unfold is_button_pressed
    by_cases hb : st.button_pressed = false
    · rw [if_pos hb]
      exact ⟨⟨h12, h23⟩, hen, hdis⟩
    · rw [if_neg hb]
      by_cases hc : now - st.button_press_time > (st.button_timeout : ℚ)
      · rw [if_pos hc]
        exact ledInv_buttonTimeout st
      · rw [if_neg hc]
        exact ⟨⟨h12, h23⟩, hen, hdis⟩
  | status now =>
    show ledInv (get_status st now).2
    unfold get_status
    by_cases hb : st.button_pressed = false
    · rw [if_pos hb]
      exact ⟨⟨h12, h23⟩, hen, hdis⟩
    · rw [if_neg hb]
      by_cases hr : pymax 0 ((st.button_timeout : ℚ) - (now - st.button_press_time)) = 0
      · rw [if_pos hr]
        exact ledInv_buttonTimeout st
      · rw [if_neg hr]
        exact ⟨⟨h12, h23⟩, hen, hdis⟩
  | doReset =>
    exact ledInv_buttonTimeout _
  | fireExpiry =>
    show ledInv (fireTimer st)
    unfold fireTimer
    cases hct : st.cleanup_timer with
    | none => exact ⟨⟨h12, h23⟩, hen, hdis⟩
    | some tf => exact ⟨⟨rfl, rfl⟩, fun _ => rfl, fun _ => rfl⟩

/-- The LED invariant holds along every operation sequence. -/
theorem ledInv_runOps (st : EnhancedSecurity) (ops : List SecOp)
    (h : ledInv st) : ledInv (runOps st ops) := by
  induction ops generalizing st with
  | nil => exact h
  | cons op l ih => exact ih _ (ledInv_applyOp st op h)

/-- Claim C2: a registration request made while the pairing window is
inactive (never armed or already expired, i.e. `is_button_pressed` answers
false) returns exactly the structured error list
`[{error: {type: 101, address: "", description: "link button not pressed"}}]`
and leaves the bridge config, hence its whitelist mapping, unchanged. -/
theorem c2_disarmed_register_rejected (oracle : CryptoOracle)
    (uuidName uuidKey tLastUse tCreate : String) (devicetype : Option String)
    (generateclientkey : Bool) (sec : EnhancedSecurity) (now1 now2 : ℚ)
    (cfg : BridgeConfig)
    (h : (is_button_pressed sec now1).1 = false) :
    (enhanced_auth_wrapper oracle uuidName uuidKey tLastUse tCreate devicetype
        generateclientkey sec now1 now2 cfg).1 =
      [AuthItem.err 101 ("") ("link button not pressed")] ∧
    (enhanced_auth_wrapper oracle uuidName uuidKey tLastUse tCreate devicetype
        generateclientkey sec now1 now2 cfg).2.2 = cfg := by
  constructor <;> simp [enhanced_auth_wrapper, h]

/-- Witness for C2: a fresh, never-armed default state rejects a concrete
request and writes nothing. -/
theorem c2_witness :
    (enhanced_auth_wrapper ocW ("u1") ("u2") ("t1") ("t2")
        (some ("app#device")) false secFresh30 0 0 cfgEmpty).1 =
      [AuthItem.err 101 ("") ("link button not pressed")] ∧
    (enhanced_auth_wrapper ocW ("u1") ("u2") ("t1") ("t2")
        (some ("app#device")) false secFresh30 0 0 cfgEmpty).2.2 = cfgEmpty :=
  c2_disarmed_register_rejected ocW ("u1") ("u2") ("t1") ("t2")
    (some ("app#device")) false secFresh30 0 0 cfgEmpty rfl

/-- Claim C4: the pairing-window invariant holds at every query point
(after a query the state can only be armed with elapsed time within the
timeout), and any query made more than `timeoutSeconds` after an arm with
no intervening arm answers false and, as a side effect, disarms, clears
the press time and switches all three indicators off (lazy expiry). -/
theorem c4_pairing_window_invariant :
    (∀ (st : EnhancedSecurity) (now : ℚ),
      (is_button_pressed st now).2.button_pressed = true →
        now - (is_button_pressed st now).2.button_press_time ≤
          ((is_button_pressed st now).2.button_timeout : ℚ)) ∧
    (∀ (st : EnhancedSecurity) (now t : ℚ),
      t > (st.button_timeout : ℚ) →
      (is_button_pressed (press_button st now).2 (now + t)).1 = false ∧
      (is_button_pressed (press_button st now).2 (now + t)).2.button_pressed = false ∧
      (is_button_pressed (press_button st now).2 (now + t)).2.button_press_time = 0 ∧
      (is_button_pressed (press_button st now).2 (now + t)).2.led_state = LedState.allOff) := by
  constructor
  · intro st now
    by_cases hb : st.button_pressed = false
    · simp [is_button_pressed, hb]
    · by_cases hc : now - st.button_press_time > (st.button_timeout : ℚ)
      · simp [is_button_pressed, hb, hc, buttonTimeoutCallback]
      · intro _
        rw [is_button_pressed_armed st now (by simpa using hb) hc]
        exact not_lt.mp hc
  · intro st now t ht
    obtain ⟨h1, h2, h3, _⟩ := press_button_fields st now
    have hb : ¬ (press_button st now).2.button_pressed = false := by simp [h1]
    have hc : (now + t) - (press_button st now).2.button_press_time >
        ((press_button st now).2.button_timeout : ℚ) := by
      rw [h2, h3]
      have : now + t - now = t := by ring
      rw [this]
      exact ht
    refine ⟨?_, ?_, ?_, ?_⟩ <;>
      simp [is_button_pressed, hb, hc, buttonTimeoutCallback]

/-- Witness for C4 at concrete inputs: an armed default state queried at
instant 5 keeps the invariant, and a fresh arm at 0 queried at 31 has
expired with all side effects. -/
theorem c4_witness :
    ((5 : ℚ) - (is_button_pressed secArmed30 5).2.button_press_time ≤
      ((is_button_pressed secArmed30 5).2.button_timeout : ℚ)) ∧
    ((is_button_pressed (press_button secFresh30 0).2 (0 + 31)).1 = false ∧
     (is_button_pressed (press_button secFresh30 0).2 (0 + 31)).2.button_pressed = false ∧
     (is_button_pressed (press_button secFresh30 0).2 (0 + 31)).2.button_press_time = 0 ∧
     (is_button_pressed (press_button secFresh30 0).2 (0 + 31)).2.led_state = LedState.allOff) := by
  refine ⟨c4_pairing_window_invariant.1 secArmed30 5 ?_,
          c4_pairing_window_invariant.2 secFresh30 0 31 ?_⟩
  · norm_num [is_button_pressed, secArmed30]
  · norm_num [secFresh30, mkSecurity]

/-- Claim C9 (write path): after `patch_bridge_linkbutton` has replaced
`bridge_config["linkbutton"]` by the `EnhancedLinkButton` wrapper, a write
to any key of it never terminates: for every fuel bound the step semantics
of `__setitem__` fails to produce a post-state, because its last line
re-enters `__setitem__` through the replaced mapping entry, re-running
`press_button` at every level and never reaching the underlying store. -/
theorem c9_linkbutton_write_diverges (fuel : Nat) (key : String) (v : ℚ)
    (sec : EnhancedSecurity) (now : ℚ) :
    linkbuttonSet fuel key v sec now = none := by
  induction fuel generalizing sec with
  | zero => rfl
  | succ n ih => exact ih _

/-- Claim C10: `reset()` unconditionally disarms (armed false, press time
cleared to 0, all three indicators off, pending scheduled expiry
cancelled), any later `isActive()` query answers false, and `reset()` is
idempotent. -/
theorem c10_reset_unconditional_idempotent (st : EnhancedSecurity) :
    (reset st).button_pressed = false ∧
    (reset st).button_press_time = 0 ∧
    (reset st).led_state = LedState.allOff ∧
    (reset st).cleanup_timer = none ∧
    (∀ now : ℚ, (is_button_pressed (reset st) now).1 = false) ∧
    reset (reset st) = reset st :=
  ⟨rfl, rfl, rfl, rfl, fun _ => rfl, rfl⟩

/-- Claim C1 counterexample: with `securityEnabled = false` and the window
never armed, a concrete registration request is answered with the
link-button error and nothing is written, refuting the claim that the
wrapper then mints a credential without consulting the pairing window. -/
theorem c1_counterexample :
    (enhanced_auth_wrapper ocW ("u1") ("u2") ("t1") ("t2")
        (some ("app#device")) false secDisabledUnarmed 0 0 cfgEmpty).1 =
      [AuthItem.err 101 ("") ("link button not pressed")] ∧
    (enhanced_auth_wrapper ocW ("u1") ("u2") ("t1") ("t2")
        (some ("app#device")) false secDisabledUnarmed 0 0 cfgEmpty).2.2.whitelist = none :=
  ⟨rfl, rfl⟩

/-- Claim C1 (amended): the `securityEnabled` flag does not bypass
registration.  The wrapper always consults `is_button_pressed`, so with the
flag false and the window never armed every request returns the
link-button-not-pressed error and leaves the config unchanged; the
flag only changes `press_button`, which then arms without touching the
indicator LEDs or the scheduled-expiry timer. -/
theorem c1_security_disabled_still_gated (oracle : CryptoOracle)
    (uuidName uuidKey tLastUse tCreate : String) (devicetype : Option String)
    (generateclientkey : Bool) (sec : EnhancedSecurity) (now1 now2 : ℚ)
    (cfg : BridgeConfig) (hsec : sec.security_enabled = false)
    (hun : sec.button_pressed = false) :
    (enhanced_auth_wrapper oracle uuidName uuidKey tLastUse tCreate devicetype
        generateclientkey sec now1 now2 cfg).1 =
      [AuthItem.err 101 ("") ("link button not pressed")] ∧
    (enhanced_auth_wrapper oracle uuidName uuidKey tLastUse tCreate devicetype
        generateclientkey sec now1 now2 cfg).2.2 = cfg ∧
    (press_button sec now1).2.led_state = sec.led_state ∧
    (press_button sec now1).2.cleanup_timer = sec.cleanup_timer := by
  have h : (is_button_pressed sec now1).1 = false := by
    simp [is_button_pressed, hun]
  refine ⟨?_, ?_, ?_, ?_⟩ <;> simp [enhanced_auth_wrapper, press_button, h, hsec]

/-- Witness for C1 at concrete inputs. -/
theorem c1_witness :
    (enhanced_auth_wrapper ocW ("u3") ("u4") ("t3") ("t4")
        (some ("other#device")) true secDisabledUnarmed 1 1 cfgEmpty).1 =
      [AuthItem.err 101 ("") ("link button not pressed")] ∧
    (enhanced_auth_wrapper ocW ("u3") ("u4") ("t3") ("t4")
        (some ("other#device")) true secDisabledUnarmed 1 1 cfgEmpty).2.2 = cfgEmpty ∧
    (press_button secDisabledUnarmed 1).2.led_state = secDisabledUnarmed.led_state ∧
    (press_button secDisabledUnarmed 1).2.cleanup_timer = secDisabledUnarmed.cleanup_timer :=
  c1_security_disabled_still_gated ocW ("u3") ("u4") ("t3") ("t4")
    (some ("other#device")) true secDisabledUnarmed 1 1 cfgEmpty rfl rfl

/-- Claim C5 counterexample: arm a security-disabled fresh state at instant
0 with timeout 30 and query at the exact instant 30: `is_button_pressed`
still answers true (its test is `elapsed > timeout`) while `status` already
reports disarmed (its test is `remaining == 0`, i.e. `elapsed >= timeout`),
refuting that the two agree at every instant. -/
theorem c5_counterexample :
    (is_button_pressed (press_button (mkSecurity 30 true false) 0).2 30).1 = true ∧
    (get_status (press_button (mkSecurity 30 true false) 0).2 30).1.button_pressed = false := by
  constructor
  · norm_num [is_button_pressed, press_button, mkSecurity]
  · norm_num [get_status, press_button, mkSecurity, pymax]

/-- Claim C5 (amended): the armed field reported by `status()` agrees with
`isActive()` at every instant except exactly at `elapsed = timeoutSeconds`;
whenever `status()` reports armed, `isActive()` agrees; and the scenario
holds: with timeout 1, 1.5 seconds after arming, `status()` reports
disarmed with zero seconds remaining. -/
theorem c5_status_matches_isactive :
    (∀ (st : EnhancedSecurity) (now : ℚ),
      now - st.button_press_time ≠ (st.button_timeout : ℚ) →
      (get_status st now).1.button_pressed = (is_button_pressed st now).1) ∧
    (∀ (st : EnhancedSecurity) (now : ℚ),
      (get_status st now).1.button_pressed = true →
      (is_button_pressed st now).1 = true) ∧
    (∀ (st : EnhancedSecurity) (now : ℚ),
      st.button_timeout = 1 →
      (get_status (press_button st now).2 (now + 3/2)).1.button_pressed = false ∧
      (get_status (press_button st now).2 (now + 3/2)).1.time_remaining = 0) := by
  refine ⟨?_, ?_, ?_⟩
  · intro st now hne
    by_cases hb : st.button_pressed = false
    · simp [get_status, is_button_pressed, hb]
    · rcases lt_or_gt_of_ne hne with hlt | hgt
      · have h1 : ¬ now - st.button_press_time > (st.button_timeout : ℚ) :=
          not_lt.mpr (le_of_lt hlt)
        have h2 : ¬ pymax 0 ((st.button_timeout : ℚ) - (now - st.button_press_time)) = 0 := by
          rw [pymax_zero_iff]
          push_neg
          linarith
        simp [get_status, is_button_pressed, hb, h1, h2]
      · have h2 : pymax 0 ((st.button_timeout : ℚ) - (now - st.button_press_time)) = 0 := by
          rw [pymax_zero_iff]
          linarith
        simp [get_status, is_button_pressed, hb, hgt, h2]
  · intro st now h
    by_cases hb : st.button_pressed = false
    · simp [get_status, hb] at h
    · by_cases h2 : pymax 0 ((st.button_timeout : ℚ) - (now - st.button_press_time)) = 0
      · simp [get_status, hb, h2] at h
      · have hc : ¬ now - st.button_press_time > (st.button_timeout : ℚ) := by
          intro hgt
          exact h2 ((pymax_zero_iff _).mpr (by linarith))
        simp [is_button_pressed, hb, hc]
  · intro st now htm
    obtain ⟨h1, h2, h3, _⟩ := press_button_fields st now
    have hb : ¬ (press_button st now).2.button_pressed = false := by simp [h1]
    have hr : pymax 0 (((press_button st now).2.button_timeout : ℚ) -
        ((now + 3/2) - (press_button st now).2.button_press_time)) = 0 := by
      rw [h2, h3, htm, pymax_zero_iff]
      push_cast
      linarith
    constructor <;> simp [get_status, hb, hr]

/-- Witness for C5 at concrete inputs: agreement away from the boundary,
the status-armed-implies-active direction, and the timeout-1 scenario. -/
theorem c5_witness :
    ((get_status secArmed30 5).1.button_pressed = (is_button_pressed secArmed30 5).1) ∧
    ((is_button_pressed secArmed30 5).1 = true) ∧
    ((get_status (press_button (mkSecurity 1 true true) 0).2 (0 + 3/2)).1.button_pressed = false ∧
     (get_status (press_button (mkSecurity 1 true true) 0).2 (0 + 3/2)).1.time_remaining = 0) := by
  refine ⟨c5_status_matches_isactive.1 secArmed30 5 ?_,
          c5_status_matches_isactive.2.1 secArmed30 5 ?_,
          c5_status_matches_isactive.2.2 (mkSecurity 1 true true) 0 rfl⟩
  · norm_num [secArmed30]
  · norm_num [get_status, secArmed30, pymax]

/-- Claim C6 counterexample: with the configuration `timeoutSeconds = 0`,
`press_button` succeeds and arms, and `isActive()` is even still true, but
an immediate `status()` already reports disarmed — refuting the claim for
every configuration. -/
theorem c6_counterexample :
    (press_button (mkSecurity 0 true true) 0).2.button_pressed = true ∧
    (is_button_pressed (press_button (mkSecurity 0 true true) 0).2 0).1 = true ∧
    (get_status (press_button (mkSecurity 0 true true) 0).2 0).1.button_pressed = false := by
  refine ⟨?_, ?_, ?_⟩ <;>
    norm_num [press_button, is_button_pressed, get_status, mkSecurity, pymax]

/-- Claim C6 (amended): `arm()` has no error conditions: for every prior
state and configuration (the security-disable flag included) `press_button`
returns success with the configured timeout and the indicator state as of
the return, and arms with `armedAt = now`; provided the configured timeout
is positive, immediately afterwards `isActive()` is true and `status()`
reports armed. -/
theorem c6_arm_always_succeeds (st : EnhancedSecurity) (now : ℚ) :
    ((press_button st now).1.success = true ∧
     (press_button st now).1.timeout = st.button_timeout ∧
     (press_button st now).1.leds = (press_button st now).2.led_state ∧
     (press_button st now).2.button_pressed = true ∧
     (press_button st now).2.button_press_time = now) ∧
    (0 < st.button_timeout →
      (is_button_pressed (press_button st now).2 now).1 = true ∧
      (get_status (press_button st now).2 now).1.button_pressed = true) := by
  obtain ⟨h1, h2, h3, _⟩ := press_button_fields st now
  constructor
  · by_cases hs : st.security_enabled = false <;> simp [press_button, hs]
  · intro hpos
    have hT : (0 : ℚ) < (st.button_timeout : ℚ) := by exact_mod_cast hpos
    have hb : ¬ (press_button st now).2.button_pressed = false := by simp [h1]
    have hc : ¬ now - (press_button st now).2.button_press_time >
        ((press_button st now).2.button_timeout : ℚ) := by
      rw [h2, h3]
      push_neg
      simp
      linarith
    have hr : ¬ pymax 0 (((press_button st now).2.button_timeout : ℚ) -
        (now - (press_button st now).2.button_press_time)) = 0 := by
      rw [h2, h3, pymax_zero_iff]
      push_neg
      simp
      linarith
    constructor
    · simp [is_button_pressed, hb, hc]
    · simp [get_status, hb, hr]

/-- Witness for C6 at concrete inputs. -/
theorem c6_witness :
    (press_button (mkSecurity 30 true true) 7).1.success = true ∧
    (is_button_pressed (press_button (mkSecurity 30 true true) 7).2 7).1 = true ∧
    (get_status (press_button (mkSecurity 30 true true) 7).2 7).1.button_pressed = true := by
  have H := c6_arm_always_succeeds (mkSecurity 30 true true) 7
  exact ⟨H.1.1, (H.2 (by decide)).1, (H.2 (by decide)).2⟩

/-- Claim C7 counterexample: from a fresh state with the security-disable
flag set, one `press_button` yields `armed = true` with `led1 = false`,
refuting that the three indicators are all true exactly when armed. -/
theorem c7_counterexample :
    (runOps (mkSecurity 30 true false) [SecOp.press 0]).button_pressed = true ∧
    (runOps (mkSecurity 30 true false) [SecOp.press 0]).led_state.led1 = false := by
  constructor <;>
    norm_num [runOps, applyOp, press_button, mkSecurity, LedState.allOff]

/-- Claim C7 (amended): after every operation sequence from construction
(arm, query, status, reset, timer expiry) the three indicator flags are
mutually equal; with security enabled they are all true exactly when armed,
but with security disabled `press_button` leaves them untouched, so they
stay off even while armed. -/
theorem c7_led_invariant (timeout : ℤ) (ledEnabled securityEnabled : Bool)
    (ops : List SecOp) :
    ((runOps (mkSecurity timeout ledEnabled securityEnabled) ops).led_state.led1 =
       (runOps (mkSecurity timeout ledEnabled securityEnabled) ops).led_state.led2 ∧
     (runOps (mkSecurity timeout ledEnabled securityEnabled) ops).led_state.led2 =
       (runOps (mkSecurity timeout ledEnabled securityEnabled) ops).led_state.led3) ∧
    ((runOps (mkSecurity timeout ledEnabled securityEnabled) ops).security_enabled = true →
      (runOps (mkSecurity timeout ledEnabled securityEnabled) ops).led_state.led1 =
        (runOps (mkSecurity timeout ledEnabled securityEnabled) ops).button_pressed) ∧
    ((runOps (mkSecurity timeout ledEnabled securityEnabled) ops).security_enabled = false →
      (runOps (mkSecurity timeout ledEnabled securityEnabled) ops).led_state.led1 = false) :=
  ledInv_runOps (mkSecurity timeout ledEnabled securityEnabled) ops
    ⟨⟨rfl, rfl⟩, fun _ => rfl, fun _ => rfl⟩

/-- Witness for C7 at concrete inputs: with security enabled, after a
press the indicators mirror the armed flag. -/
theorem c7_witness :
    (runOps (mkSecurity 30 true true) [SecOp.press 2]).led_state.led1 =
      (runOps (mkSecurity 30 true true) [SecOp.press 2]).button_pressed := by
  refine (c7_led_invariant 30 true true [SecOp.press 2]).2.1 ?_
  norm_num [runOps, applyOp, press_button, mkSecurity]

/-- Claim C8: re-arming while already armed restarts the window: after an
arm at 0 and a re-arm at `timeoutSeconds - 2`, a query at
`timeoutSeconds - 1` still shows armed through `isActive()` and `status()`,
because the press time is reset to the re-arm instant and (with security
enabled) the pending scheduled expiry is cancelled and restarted from the
re-arm instant. -/
theorem c8_rearm_restarts_window (sec : EnhancedSecurity)
    (h2 : 2 ≤ sec.button_timeout) :
    (is_button_pressed
        (press_button (press_button sec 0).2 ((sec.button_timeout : ℚ) - 2)).2
        ((sec.button_timeout : ℚ) - 1)).1 = true ∧
    (get_status
        (press_button (press_button sec 0).2 ((sec.button_timeout : ℚ) - 2)).2
        ((sec.button_timeout : ℚ) - 1)).1.button_pressed = true ∧
    (press_button (press_button sec 0).2 ((sec.button_timeout : ℚ) - 2)).2.button_press_time =
      (sec.button_timeout : ℚ) - 2 ∧
    (sec.security_enabled = true →
      (press_button (press_button sec 0).2 ((sec.button_timeout : ℚ) - 2)).2.cleanup_timer =
        some (((sec.button_timeout : ℚ) - 2) + (sec.button_timeout : ℚ))) := by
  obtain ⟨p1, p2, p3, p4⟩ := press_button_fields sec 0
  obtain ⟨q1, q2, q3, q4⟩ :=
    press_button_fields (press_button sec 0).2 ((sec.button_timeout : ℚ) - 2)
  have hTQ : (2 : ℚ) ≤ (sec.button_timeout : ℚ) := by exact_mod_cast h2
  have hto : (press_button (press_button sec 0).2 ((sec.button_timeout : ℚ) - 2)).2.button_timeout =
      sec.button_timeout := by rw [q3, p3]
  have hb : ¬ (press_button (press_button sec 0).2 ((sec.button_timeout : ℚ) - 2)).2.button_pressed = false := by
    simp [q1]
  have hc : ¬ ((sec.button_timeout : ℚ) - 1) -
      (press_button (press_button sec 0).2 ((sec.button_timeout : ℚ) - 2)).2.button_press_time >
      ((press_button (press_button sec 0).2 ((sec.button_timeout : ℚ) - 2)).2.button_timeout : ℚ) := by
    rw [q2, hto]
    push_neg
    have he : ((sec.button_timeout : ℚ) - 1) - ((sec.button_timeout : ℚ) - 2) = 1 := by ring
    rw [he]
    linarith
  have hr : ¬ pymax 0
      (((press_button (press_button sec 0).2 ((sec.button_timeout : ℚ) - 2)).2.button_timeout : ℚ) -
        (((sec.button_timeout : ℚ) - 1) -
          (press_button (press_button sec 0).2 ((sec.button_timeout : ℚ) - 2)).2.button_press_time)) = 0 := by
    rw [q2, hto, pymax_zero_iff]
    push_neg
    have he : ((sec.button_timeout : ℚ) - 1) - ((sec.button_timeout : ℚ) - 2) = 1 := by ring
    rw [he]
    linarith
  refine ⟨?_, ?_, q2, ?_⟩
  · simp [is_button_pressed, hb, hc]
  · simp [get_status, hb, hr]
  · intro hsec
    have hs1 : (press_button sec 0).2.security_enabled = true := by
      rw [p4, hsec]
    rw [press_button_timer_enabled _ _ hs1, p3]

/-- Witness for C8 at the default 30-second configuration. -/
theorem c8_witness :
    (is_button_pressed
        (press_button (press_button secFresh30 0).2 ((secFresh30.button_timeout : ℚ) - 2)).2
        ((secFresh30.button_timeout : ℚ) - 1)).1 = true ∧
    (press_button (press_button secFresh30 0).2 ((secFresh30.button_timeout : ℚ) - 2)).2.cleanup_timer =
      some (((secFresh30.button_timeout : ℚ) - 2) + (secFresh30.button_timeout : ℚ)) :=
  ⟨(c8_rearm_restarts_window secFresh30 (by decide)).1,
   (c8_rearm_restarts_window secFresh30 (by decide)).2.2.2 rfl⟩

/-- The concrete oracle meets the md5 hexdigest contract. -/
theorem ocW_md5 : md5Contract ocW := by
  intro s
  refine ⟨rfl, ?_⟩
  show isLowerHexStr ("0123456789abcdef0123456789abcdef") = true
  decide

/-- The concrete oracle meets the sha256 hexdigest contract. -/
theorem ocW_sha : sha256Contract ocW := fun _ => rfl

/-- Claim C3 counterexample: at a trace where the two consecutive
`str(datetime.now())` readings differ (here "t1" then "t2"), the stored
whitelist entry has `last use date = "t1"` but `create date = "t2"`,
refuting that the create date equals the last use date. -/
theorem c3_counterexample :
    ((enhanced_auth_wrapper ocW ("u1") ("u2") ("t1") ("t2")
        (some ("app#device")) false secArmed30 5 5 cfgEmpty).2.2.whitelist.getD
          emptyWhitelist) ("0123456789abcdef0123456789abcdef") =
      some ⟨("t1"), ("t2"), ("app#device"), none⟩ ∧
    ("t1" : String) ≠ ("t2") := by
  constructor
  · norm_num [enhanced_auth_wrapper, is_button_pressed, secArmed30, ocW,
      wlSet, cfgEmpty, emptyWhitelist]
  · decide

/-- Claim C3 (amended): while the window is active the wrapper returns a
success carrying the username `md5hex(deviceLabel ++ uuid)` — a non-empty
32-lowercase-hex string under the md5 hexdigest contract — and inserts a
whitelist entry keyed by that same username with `name = deviceLabel`, the
last use date being the first and the create date the second of the two
consecutive clock readings (equal only when the clock did not advance
between them); both the entry and the response carry the 32-character
clientkey exactly when `generateclientkey` was set and none otherwise. -/
theorem c3_armed_register_success (oracle : CryptoOracle)
    (uuidName uuidKey tLastUse tCreate : String) (devicetype : Option String)
    (generateclientkey : Bool) (sec : EnhancedSecurity) (now1 now2 : ℚ)
    (cfg : BridgeConfig)
    (hmd5 : md5Contract oracle) (hsha : sha256Contract oracle)
    (h : (is_button_pressed sec now1).1 = true) :
    (enhanced_auth_wrapper oracle uuidName uuidKey tLastUse tCreate devicetype
        generateclientkey sec now1 now2 cfg).1 =
      [AuthItem.ok (oracle.md5hex ((devicetype.getD ("unknown#unknown")) ++ uuidName))
        (if generateclientkey = true then
          some (pySlice (oracle.sha256hex uuidKey) 32) else none)] ∧
    (oracle.md5hex ((devicetype.getD ("unknown#unknown")) ++ uuidName)).length = 32 ∧
    oracle.md5hex ((devicetype.getD ("unknown#unknown")) ++ uuidName) ≠ ("") ∧
    isLowerHexStr (oracle.md5hex ((devicetype.getD ("unknown#unknown")) ++ uuidName)) = true ∧
    (∃ w, (enhanced_auth_wrapper oracle uuidName uuidKey tLastUse tCreate devicetype
        generateclientkey sec now1 now2 cfg).2.2.whitelist = some w ∧
      w (oracle.md5hex ((devicetype.getD ("unknown#unknown")) ++ uuidName)) =
        some ⟨tLastUse, tCreate, devicetype.getD ("unknown#unknown"),
          if generateclientkey = true then
            some (pySlice (oracle.sha256hex uuidKey) 32) else none⟩) ∧
    (generateclientkey = true →
      (pySlice (oracle.sha256hex uuidKey) 32).length = 32) ∧
    (generateclientkey = false →
      (if generateclientkey = true then
        some (pySlice (oracle.sha256hex uuidKey) 32) else none) = none) := by
  have hif : ¬ (is_button_pressed sec now1).1 = false := by simp [h]
  obtain ⟨hlen, hhex⟩ := hmd5 ((devicetype.getD ("unknown#unknown")) ++ uuidName)
  refine ⟨?_, hlen, ?_, hhex, ?_, ?_, ?_⟩
  · simp [enhanced_auth_wrapper, hif]
  · intro he
    rw [he] at hlen
    simp at hlen
  · refine ⟨wlSet (cfg.whitelist.getD emptyWhitelist)
      (oracle.md5hex ((devicetype.getD ("unknown#unknown")) ++ uuidName))
      ⟨tLastUse, tCreate, devicetype.getD ("unknown#unknown"),
        if generateclientkey = true then
          some (pySlice (oracle.sha256hex uuidKey) 32) else none⟩, ?_, ?_⟩
    · simp [enhanced_auth_wrapper, hif]
    · simp [wlSet]
  · intro _
    rw [pySlice_length, hsha]
    norm_num
  · intro hg
    rw [hg]
    simp

/-- Witness for C3 at concrete inputs, with a secondary key requested. -/
theorem c3_witness :
    (enhanced_auth_wrapper ocW ("u1") ("u2") ("t5") ("t5")
        (some ("app#device")) true secArmed30 5 5 cfgEmpty).1 =
      [AuthItem.ok (ocW.md5hex (("app#device") ++ ("u1")))
        (if true = true then some (pySlice (ocW.sha256hex ("u2")) 32) else none)] ∧
    (pySlice (ocW.sha256hex ("u2")) 32).length = 32 := by
  have H := c3_armed_register_success ocW ("u1") ("u2") ("t5") ("t5")
    (some ("app#device")) true secArmed30 5 5 cfgEmpty ocW_md5 ocW_sha
    (by norm_num [is_button_pressed, secArmed30])
  exact ⟨H.1, H.2.2.2.2.2.1 rfl⟩

end HueSec
